import Mathlib

/-!
Verification of the card-on-file harness: a shallow embedding of the local
data stores (lib/data.ts), the webhook reconciler (api/webhooks/stripe), and
the client-facing API handlers (api/customers, api/payment-methods,
api/payment-intent), together with proofs about the default-instrument
invariant, webhook idempotence, the customer-deletion cascade, retry
behaviour, and the error envelopes.

Conventions of the embedding:
- JSON values that may be absent are `Option`; JavaScript truthiness of a
  string field (`if (x)`) is `truthyStr`, which is false for a missing or
  empty string.
- The remote provider (Stripe SDK) is an explicit environment of oracles
  (`ProviderEnv`); a throwing SDK call is `Except.error msg` carrying the
  raw message, since the handlers only inspect `error.message`.
- Each HTTP handler is a pure function from its inputs, the provider
  environment and the current store contents to its response, the new store
  contents and the list of provider calls it issued, in order.
- The two JSON-file stores are `List` values; `writeFileSync` is state
  passing.
-/

/-- Local customer record (types/stripe.ts `CustomerData`).  The
`paymentMethods` field is carried as ids; every write site in the source
stores the empty array. -/
structure CustomerData where
  id : String
  email : String
  name : String
  created : Int
  paymentMethods : List String
deriving DecidableEq

/-- Card metadata inside a saved payment method (types/stripe.ts
`SavedPaymentMethod.card`). -/
structure SavedCard where
  brand : String
  last4 : String
  exp_month : Int
  exp_year : Int
deriving DecidableEq

/-- Local saved payment method record (types/stripe.ts
`SavedPaymentMethod`); `type` is always the string "card" at every write
site. -/
structure SavedPaymentMethod where
  id : String
  customerId : String
  type : String
  card : SavedCard
  created : Int
  isDefault : Bool
deriving DecidableEq

/-- The Local State Mirror: the contents of `customers.json` and
`payment-methods.json`. -/
structure Stores where
  customers : List CustomerData
  pms : List SavedPaymentMethod
deriving DecidableEq

/-- JavaScript truthiness of an optional string: absent and `""` are falsy. -/
def truthyStr : Option String → Bool
  | none => false
  | some s => !(s == "")

/-- `x || d` for an optional string, as JavaScript evaluates it: the default
is taken when the value is absent or empty. -/
def jsOrStr (o : Option String) (d : String) : String :=
  match o with
  | none => d
  | some s => if s == "" then d else s

/-- `x || d` for an optional integer, as JavaScript evaluates it: the default
is taken when the value is absent or zero. -/
def jsOrInt (o : Option Int) (d : Int) : Int :=
  match o with
  | none => d
  | some n => if n == 0 then d else n

/-- Generic id-keyed upsert: `findIndex` on the key, replace the first match
in place, otherwise push at the end.  Both `CustomerDataStore.save` and
`PaymentMethodDataStore.save` in lib/data.ts are this function at their
record type. -/
def upsertBy (key : α → String) (x : α) : List α → List α
  | [] => [x]
  | y :: rest => if key y == key x then x :: rest else y :: upsertBy key x rest

/-- Generic id-keyed delete: filter out the key, report whether the list
shrank, and only keep the filtered list in that case (lib/data.ts `delete`
of both store classes). -/
def removeBy (key : α → String) (i : String) (l : List α) : Bool × List α :=
  let filtered := l.filter (fun y => !(key y == i))
  if filtered.length < l.length then (true, filtered) else (false, l)

namespace CustomerDataStore

/-- lib/data.ts `CustomerDataStore.getById`. -/
def getById (i : String) (l : List CustomerData) : Option CustomerData :=
  l.find? (fun c => c.id == i)

/-- lib/data.ts `CustomerDataStore.getByEmail`. -/
def getByEmail (e : String) (l : List CustomerData) : Option CustomerData :=
  l.find? (fun c => c.email == e)

/-- lib/data.ts `CustomerDataStore.save`: replace the record with the same
id in place, else append. -/
def save (c : CustomerData) (l : List CustomerData) : List CustomerData :=
  upsertBy (fun x => x.id) c l

/-- lib/data.ts `CustomerDataStore.delete`: returns whether a record was
removed, and the resulting store. -/
def delete (i : String) (l : List CustomerData) : Bool × List CustomerData :=
  removeBy (fun x => x.id) i l

end CustomerDataStore

namespace PaymentMethodDataStore

/-- lib/data.ts `PaymentMethodDataStore.getById`. -/
def getById (i : String) (l : List SavedPaymentMethod) : Option SavedPaymentMethod :=
  l.find? (fun pm => pm.id == i)

/-- lib/data.ts `PaymentMethodDataStore.getByCustomerId`. -/
def getByCustomerId (cid : String) (l : List SavedPaymentMethod) : List SavedPaymentMethod :=
  l.filter (fun pm => pm.customerId == cid)

/-- lib/data.ts `PaymentMethodDataStore.save`. -/
def save (pm : SavedPaymentMethod) (l : List SavedPaymentMethod) : List SavedPaymentMethod :=
  upsertBy (fun x => x.id) pm l

/-- lib/data.ts `PaymentMethodDataStore.delete`. -/
def delete (i : String) (l : List SavedPaymentMethod) : Bool × List SavedPaymentMethod :=
  removeBy (fun x => x.id) i l

/-- The `forEach` loop of `setAsDefault`: clear `isDefault` on every record
of the given customer. -/
def clearCust (cid : String) (pm : SavedPaymentMethod) : SavedPaymentMethod :=
  if pm.customerId == cid then { pm with isDefault := false } else pm

/-- The `find`-and-mutate step of `setAsDefault`: set `isDefault := true` on
the first record with the given id, if any. -/
def setFirstById (pmId : String) : List SavedPaymentMethod → List SavedPaymentMethod
  | [] => []
  | pm :: rest =>
      if pm.id == pmId then { pm with isDefault := true } :: rest
      else pm :: setFirstById pmId rest

/-- lib/data.ts `PaymentMethodDataStore.setAsDefault`: clear the default
flag on all records whose `customerId` equals the argument, then set the
first record with the given id as default.  Note the target is looked up by
id only; its stored `customerId` is not compared with the argument. -/
def setAsDefault (pmId cid : String) (l : List SavedPaymentMethod) : List SavedPaymentMethod :=
  setFirstById pmId (l.map (clearCust cid))

end PaymentMethodDataStore

/-- Prefix test on character lists (helper for substring search). -/
def prefixMatch : List Char → List Char → Bool
  | [], _ => true
  | _ :: _, [] => false
  | a :: as, b :: bs => a == b && prefixMatch as bs

/-- Substring search on character lists. -/
def infixMatch (needle : List Char) : List Char → Bool
  | [] => needle.isEmpty
  | c :: rest => prefixMatch needle (c :: rest) || infixMatch needle rest

/-- JavaScript `hay.includes(needle)`, used by the handlers to classify
provider error messages. -/
def strContains (hay needle : String) : Bool :=
  infixMatch needle.data hay.data

/-- Card fields of a provider payment-method object
(`paymentMethod.card`), each possibly absent. -/
structure CardDetails where
  brand : Option String
  last4 : Option String
  exp_month : Option Int
  exp_year : Option Int
deriving DecidableEq

/-- A provider payment-method object, as returned by
`stripe.paymentMethods.retrieve` or carried in a `payment_method.attached`
event.  The `customer` field holds the id (the handlers normalize
string-or-expanded-object to the id). -/
structure PMDetails where
  id : String
  customer : Option String
  card : Option CardDetails
  created : Int
deriving DecidableEq

/-- A provider customer object, as returned by `stripe.customers.retrieve`
or carried in a `customer.created` / `customer.deleted` event. -/
structure RetrievedCustomer where
  id : String
  email : Option String
  name : Option String
  created : Int
  deleted : Bool
deriving DecidableEq

/-- A provider payment-intent object. -/
structure PIDetails where
  id : String
  status : String
  client_secret : Option String
deriving DecidableEq

/-- A `payment_intent.*` webhook event object (the fields the handlers
read). -/
structure PIEventObj where
  id : String
  payment_method : Option String
  customer : Option String
  setup_future_usage : Option String
  amount : Int
  currency : String
deriving DecidableEq

/-- A `setup_intent.succeeded` webhook event object (the fields the handler
reads). -/
structure SIEventObj where
  id : String
  payment_method : Option String
  customer : Option String
deriving DecidableEq

/-- Parameters of `stripe.paymentIntents.create` as assembled by the
payment-intent POST handler.  `setup_future_usage` is a flag standing for
the string value `off_session`. -/
structure PICreateParams where
  amount : Int
  currency : String
  customer : Option String
  payment_method : Option String
  confirm : Bool
  off_session : Bool
  setup_future_usage : Bool
deriving DecidableEq

/-- One call into the remote provider, with its arguments, recorded in the
order issued. -/
inductive ProviderCall where
  | retrieveCustomer (id : String)
  | createCustomer (email name : String)
  | deleteCustomer (id : String)
  | updateCustomerDefaultPM (customerId pmId : String)
  | retrievePaymentMethod (id : String)
  | attachPaymentMethod (pmId customerId : String)
  | detachPaymentMethod (id : String)
  | createPaymentIntent (p : PICreateParams)
  | confirmPaymentIntent (id : String)
  | cancelPaymentIntent (id : String)
deriving DecidableEq

/-- The remote provider as an environment of oracles.  A throwing SDK call
is `Except.error` carrying the raw message.  `currentYear` stands for
`new Date().getFullYear()`, used as an expiry-year fallback. -/
structure ProviderEnv where
  retrieveCustomer : String → Except String RetrievedCustomer
  createCustomer : String → String → Except String RetrievedCustomer
  deleteCustomer : String → Except String Unit
  updateCustomerDefaultPM : String → String → Except String Unit
  retrievePaymentMethod : String → Except String PMDetails
  attachPaymentMethod : String → String → Except String PMDetails
  detachPaymentMethod : String → Except String Unit
  createPaymentIntent : PICreateParams → Except String PIDetails
  confirmPaymentIntent : String → Except String PIDetails
  cancelPaymentIntent : String → Except String PIDetails
  currentYear : Int

/-- The normalized response envelope (`ApiResponse`) together with the HTTP
status the handler attaches: `success`, optional `error` message.  Payload
data is returned separately by each handler. -/
structure ApiResp where
  status : Nat
  success : Bool
  error : Option String
deriving DecidableEq

/-- `PaymentIntentResponse` (types/stripe.ts). -/
structure PaymentIntentResponse where
  clientSecret : Option String
  paymentIntentId : String
  status : String
  requiresAction : Bool
deriving DecidableEq

/-- The local record built by the three webhook save paths
(setup-intent-succeeded, payment-intent-succeeded, payment-method-attached)
from a provider payment-method object; always `isDefault := false`. -/
def savedFromRetrieved (pm : PMDetails) (cid : String) (year : Int) : SavedPaymentMethod :=
  { id := pm.id
    customerId := cid
    type := "card"
    card :=
      { brand := jsOrStr (pm.card.bind (fun c => c.brand)) "unknown"
        last4 := jsOrStr (pm.card.bind (fun c => c.last4)) "0000"
        exp_month := jsOrInt (pm.card.bind (fun c => c.exp_month)) 1
        exp_year := jsOrInt (pm.card.bind (fun c => c.exp_year)) year }
    created := pm.created * 1000
    isDefault := false }

/-- The local record built by the payment-methods POST (attach) handler:
same card normalization, `customerId` from the request body, `isDefault`
from the request flag. -/
def attachRecord (pm : PMDetails) (cid : String) (isDef : Bool) (year : Int) : SavedPaymentMethod :=
  { savedFromRetrieved pm cid year with isDefault := isDef }

/-- The payloads the webhook dispatcher distinguishes (`switch` on
`event.type`); unknown types fall into `other`. -/
inductive StripeEventData where
  | setupIntentSucceeded (si : SIEventObj)
  | paymentIntentSucceeded (pi : PIEventObj)
  | paymentIntentFailed (pi : PIEventObj)
  | paymentMethodAttached (pm : PMDetails)
  | customerCreated (c : RetrievedCustomer)
  | customerDeleted (c : RetrievedCustomer)
  | other (type : String)
deriving DecidableEq

/-- A verified webhook event: the provider-assigned id and the typed
payload. -/
structure WebhookEvent where
  id : String
  data : StripeEventData
deriving DecidableEq

/-- Webhook handler responses are not the `ApiResponse` envelope: either
`\x7b received: true \x7d` or `\x7b error \x7d` with a status. -/
structure WebhookResp where
  status : Nat
  error : Option String
  received : Bool
deriving DecidableEq

/-- `handleSetupIntentSucceeded` (webhook route): when the event carries a
payment method and a customer, fetch the payment method from the provider
and upsert the local record; a failed fetch is caught and logged, writing
nothing. -/
def handleSetupIntentSucceeded (env : ProviderEnv) (si : SIEventObj) (s : Stores) : Stores :=
  if truthyStr si.payment_method && truthyStr si.customer then
    match env.retrievePaymentMethod (si.payment_method.getD "") with
    | .ok pm =>
        let r := savedFromRetrieved pm (si.customer.getD "") env.currentYear
        { s with pms := PaymentMethodDataStore.save r s.pms }
    | .error _ => s
  else s

/-- `handlePaymentIntentSucceeded` (webhook route): only when the intent
carries `setup_future_usage`, a payment method and a customer is the
payment method fetched and upserted locally. -/
def handlePaymentIntentSucceeded (env : ProviderEnv) (p : PIEventObj) (s : Stores) : Stores :=
  if truthyStr p.setup_future_usage && truthyStr p.payment_method && truthyStr p.customer then
    match env.retrievePaymentMethod (p.payment_method.getD "") with
    | .ok pm =>
        let r := savedFromRetrieved pm (p.customer.getD "") env.currentYear
        { s with pms := PaymentMethodDataStore.save r s.pms }
    | .error _ => s
  else s

/-- `handlePaymentIntentFailed` (webhook route): logging only, no store
write. -/
def handlePaymentIntentFailed (_p : PIEventObj) (s : Stores) : Stores := s

/-- `handlePaymentMethodAttached` (webhook route): when the object carries a
customer, upsert the local record built from the event object itself. -/
def handlePaymentMethodAttached (env : ProviderEnv) (pm : PMDetails) (s : Stores) : Stores :=
  if truthyStr pm.customer then
    let r := savedFromRetrieved pm (pm.customer.getD "") env.currentYear
    { s with pms := PaymentMethodDataStore.save r s.pms }
  else s

/-- `handleCustomerCreated` (webhook route): upsert the local customer
record with empty `paymentMethods`. -/
def handleCustomerCreated (c : RetrievedCustomer) (s : Stores) : Stores :=
  let r : CustomerData :=
    { id := c.id, email := c.email.getD "", name := c.name.getD ""
      created := c.created * 1000, paymentMethods := [] }
  { s with customers := CustomerDataStore.save r s.customers }

/-- `handleCustomerDeleted` (webhook route): delete the customer record,
then delete each payment method `getByCustomerId` returned, one store
delete at a time. -/
def handleCustomerDeleted (c : RetrievedCustomer) (s : Stores) : Stores :=
  let customers := (CustomerDataStore.delete c.id s.customers).2
  let owned := PaymentMethodDataStore.getByCustomerId c.id s.pms
  let pms := owned.foldl (fun acc pm => (PaymentMethodDataStore.delete pm.id acc).2) s.pms
  { customers := customers, pms := pms }

/-- The dispatch step of the webhook POST handler: `switch (event.type)`.
Note it never reads the event id: there is no deduplication step. -/
def applyEvent (env : ProviderEnv) (e : WebhookEvent) (s : Stores) : Stores :=
  match e.data with
  | .setupIntentSucceeded si => handleSetupIntentSucceeded env si s
  | .paymentIntentSucceeded p => handlePaymentIntentSucceeded env p s
  | .paymentIntentFailed p => handlePaymentIntentFailed p s
  | .paymentMethodAttached pm => handlePaymentMethodAttached env pm s
  | .customerCreated c => handleCustomerCreated c s
  | .customerDeleted c => handleCustomerDeleted c s
  | .other _ => s

/-- The webhook POST handler: missing signature is rejected with 400, a
failed `constructWebhookEvent` (signature verification, modeled by the
`verify` oracle) is rejected with 400, and only then is the event
dispatched. -/
def webhookPOST (env : ProviderEnv)
    (verify : String → String → String → Except String WebhookEvent)
    (body secret : String) (signature : Option String) (s : Stores) :
    WebhookResp × Stores :=
  match signature with
  | none => ({ status := 400, error := some "Missing signature", received := false }, s)
  | some sg =>
      match verify body sg secret with
      | .error _ => ({ status := 400, error := some "Invalid signature", received := false }, s)
      | .ok ev => ({ status := 200, error := none, received := true }, applyEvent env ev s)

/-- `CreateCustomerRequest` as parsed from the POST body; either field may
be absent in the JSON. -/
structure CreateCustomerBody where
  email : Option String
  name : Option String
deriving DecidableEq

/-- Payload of a customers POST success response: either the existing local
record (dedup hit) or the pair of provider and local records just created. -/
inductive CustomersPostData where
  | nothing
  | existingLocal (c : CustomerData)
  | created (remote : RetrievedCustomer) (localRecord : CustomerData)
deriving DecidableEq

/-- The customers POST handler (api/customers/route.ts): validate email and
name, return the existing local record when `getByEmail` hits (no provider
call, no write), otherwise create the customer at the provider and save the
local record built from the provider response (whose non-null email and
name assertions are modeled by `getD ""`). -/
def customersPOST (env : ProviderEnv) (body : CreateCustomerBody) (s : Stores) :
    ApiResp × CustomersPostData × Stores × List ProviderCall :=
  if !(truthyStr body.email && truthyStr body.name) then
    ({ status := 400, success := false, error := some "Email and name are required" },
     .nothing, s, [])
  else
    let email := body.email.getD ""
    let name := body.name.getD ""
    match CustomerDataStore.getByEmail email s.customers with
    | some existing =>
        ({ status := 200, success := true, error := none }, .existingLocal existing, s, [])
    | none =>
        match env.createCustomer email name with
        | .error msg =>
            ({ status := 500, success := false, error := some msg }, .nothing, s,
             [ProviderCall.createCustomer email name])
        | .ok sc =>
            let r : CustomerData :=
              { id := sc.id, email := sc.email.getD "", name := sc.name.getD ""
                created := sc.created * 1000, paymentMethods := [] }
            ({ status := 200, success := true, error := none }, .created sc r,
             { s with customers := CustomerDataStore.save r s.customers },
             [ProviderCall.createCustomer email name])

/-- Body of the payment-methods POST (attach) request. -/
structure AttachBody where
  paymentMethodId : Option String
  customerId : Option String
  isDefault : Bool
deriving DecidableEq

/-- The payment-methods POST handler (api/payment-methods/route.ts POST):
validate ids, attach at the provider, save the local record with the
requested default flag, and when the flag is set also run `setAsDefault`.
Any provider throw lands in the catch-all: status 500 with the raw message
as the `error` field. -/
def paymentMethodsPOST (env : ProviderEnv) (body : AttachBody) (s : Stores) :
    ApiResp × Stores × List ProviderCall :=
  if !(truthyStr body.paymentMethodId && truthyStr body.customerId) then
    ({ status := 400, success := false,
       error := some "Payment method ID and customer ID are required" }, s, [])
  else
    let pmId := body.paymentMethodId.getD ""
    let cid := body.customerId.getD ""
    match env.attachPaymentMethod pmId cid with
    | .error msg =>
        ({ status := 500, success := false, error := some msg }, s,
         [ProviderCall.attachPaymentMethod pmId cid])
    | .ok pm =>
        let r := attachRecord pm cid body.isDefault env.currentYear
        let s1 := { s with pms := PaymentMethodDataStore.save r s.pms }
        let s2 :=
          if body.isDefault then
            { s1 with pms := PaymentMethodDataStore.setAsDefault pmId cid s1.pms }
          else s1
        ({ status := 200, success := true, error := none }, s2,
         [ProviderCall.attachPaymentMethod pmId cid])

/-- Body of the payment-methods PATCH request. -/
structure PMPatchBody where
  paymentMethodId : Option String
  customerId : Option String
  action : Option String
deriving DecidableEq

/-- The payment-methods PATCH handler (api/payment-methods/route.ts PATCH):
for `set_default`, update the provider default then run the local
`setAsDefault`; a provider throw lands in the catch-all 500 with the raw
message and no local write. -/
def paymentMethodsPATCH (env : ProviderEnv) (body : PMPatchBody) (s : Stores) :
    ApiResp × Stores × List ProviderCall :=
  if !(truthyStr body.paymentMethodId && truthyStr body.customerId) then
    ({ status := 400, success := false,
       error := some "Payment method ID and customer ID are required" }, s, [])
  else
    let pmId := body.paymentMethodId.getD ""
    let cid := body.customerId.getD ""
    if body.action == some "set_default" then
      match env.updateCustomerDefaultPM cid pmId with
      | .error msg =>
          ({ status := 500, success := false, error := some msg }, s,
           [ProviderCall.updateCustomerDefaultPM cid pmId])
      | .ok _ =>
          ({ status := 200, success := true, error := none },
           { s with pms := PaymentMethodDataStore.setAsDefault pmId cid s.pms },
           [ProviderCall.updateCustomerDefaultPM cid pmId])
    else
      ({ status := 400, success := false,
         error := some "Invalid action. Use \"set_default\"" }, s, [])

/-- `PaymentIntentRequest` (types/stripe.ts) as parsed from the POST body. -/
structure PaymentIntentBody where
  customerId : Option String
  amount : Option ℚ
  currency : Option String
  paymentMethodId : Option String
  saveCard : Bool
  offSession : Bool
deriving DecidableEq

/-- `!body.amount || body.amount <= 0`: absent, zero, or negative. -/
def amountInvalid (body : PaymentIntentBody) : Bool :=
  match body.amount with
  | none => true
  | some a => decide (a ≤ 0)

/-- `Math.round(x)` on a rational, for the cents conversion
`Math.round(body.amount * 100)`. -/
def jsRound (q : ℚ) : ℤ := Rat.floor (q + 1/2)

/-- Build the `PaymentIntentResponse` from a created or confirmed provider
intent, attaching the client secret for `requires_payment_method`,
`requires_confirmation` and `requires_action`, and the `requiresAction`
flag for the latter (api/payment-intent/route.ts POST, lines after
creation). -/
def mkPIResponse (p : PIDetails) : PaymentIntentResponse :=
  let r0 : PaymentIntentResponse :=
    { clientSecret := none, paymentIntentId := p.id, status := p.status, requiresAction := false }
  let r1 :=
    if p.status == "requires_payment_method" || p.status == "requires_confirmation" then
      { r0 with clientSecret := p.client_secret }
    else r0
  if p.status == "requires_action" then
    { r1 with requiresAction := true, clientSecret := p.client_secret }
  else r1

/-- The payment-intent POST handler after amount validation: verify the
customer (404 on a throw or a deleted customer), verify the payment method
and its attachment to the customer (404 / 400), set confirm-at-creation
flags for off-session requests, request `setup_future_usage` when saving,
then create the intent; the catch classifies `authentication_required` and
`card_declined` messages as 402, everything else as 500.  The mirror is
never touched: the route does not import the data stores. -/
def paymentIntentAfterValidation (env : ProviderEnv) (body : PaymentIntentBody) (a : ℚ)
    (s : Stores) : ApiResp × Option PaymentIntentResponse × Stores × List ProviderCall :=
  let base : PICreateParams :=
    { amount := jsRound (a * 100), currency := jsOrStr body.currency "usd"
      customer := none, payment_method := none
      confirm := false, off_session := false, setup_future_usage := false }
  let step2 : PICreateParams → List ProviderCall →
      ApiResp × Option PaymentIntentResponse × Stores × List ProviderCall :=
    fun params calls =>
      let params :=
        if body.saveCard && truthyStr body.customerId then
          { params with setup_future_usage := true }
        else params
      match env.createPaymentIntent params with
      | .ok p =>
          ({ status := 200, success := true, error := none }, some (mkPIResponse p), s,
           calls ++ [ProviderCall.createPaymentIntent params])
      | .error msg =>
          let status :=
            if strContains msg "authentication_required" then 402
            else if strContains msg "card_declined" then 402
            else 500
          ({ status := status, success := false, error := some msg }, none, s,
           calls ++ [ProviderCall.createPaymentIntent params])
  let step1 : PICreateParams → List ProviderCall →
      ApiResp × Option PaymentIntentResponse × Stores × List ProviderCall :=
    fun params calls =>
      if truthyStr body.paymentMethodId then
        let p := body.paymentMethodId.getD ""
        match env.retrievePaymentMethod p with
        | .error msg =>
            let friendly :=
              if strContains msg "No such payment_method" then
                "Payment method " ++ p ++ " not found. Please refresh payment methods."
              else msg
            ({ status := 404, success := false, error := some friendly }, none, s,
             calls ++ [ProviderCall.retrievePaymentMethod p])
        | .ok pm =>
            if truthyStr body.customerId && !(pm.customer == body.customerId) then
              ({ status := 400, success := false,
                 error := some ("Payment method " ++ p ++ " is not attached to customer "
                   ++ body.customerId.getD "" ++ ". Please select a payment method for this customer.") },
               none, s, calls ++ [ProviderCall.retrievePaymentMethod p])
            else
              let params := { params with payment_method := some p }
              let params :=
                if body.offSession then
                  { params with confirm := true, off_session := true }
                else params
              step2 params (calls ++ [ProviderCall.retrievePaymentMethod p])
      else step2 params calls
  if truthyStr body.customerId then
    let cid := body.customerId.getD ""
    match env.retrieveCustomer cid with
    | .error msg =>
        let friendly :=
          if strContains msg "No such customer" then
            "Customer " ++ cid ++ " not found in your Stripe account. Please select a valid customer."
          else msg
        ({ status := 404, success := false, error := some friendly }, none, s,
         [ProviderCall.retrieveCustomer cid])
    | .ok c =>
        if c.deleted then
          ({ status := 404, success := false,
             error := some ("Customer " ++ cid ++ " has been deleted. Please select a different customer.") },
           none, s, [ProviderCall.retrieveCustomer cid])
        else
          step1 { base with customer := some cid } [ProviderCall.retrieveCustomer cid]
  else
    step1 base []

/-- The payment-intent POST handler (api/payment-intent route POST):
`Valid amount is required` with status 400 before any provider call when
the amount is absent or not positive, else proceed. -/
def paymentIntentPOST (env : ProviderEnv) (body : PaymentIntentBody) (s : Stores) :
    ApiResp × Option PaymentIntentResponse × Stores × List ProviderCall :=
  if amountInvalid body then
    ({ status := 400, success := false, error := some "Valid amount is required" }, none, s, [])
  else
    paymentIntentAfterValidation env body (body.amount.getD 0) s

/-- The response built by the payment-intent PATCH handler: client secret
and `requiresAction` only for `requires_action`. -/
def mkPIPatchResponse (p : PIDetails) : PaymentIntentResponse :=
  let r0 : PaymentIntentResponse :=
    { clientSecret := none, paymentIntentId := p.id, status := p.status, requiresAction := false }
  if p.status == "requires_action" then
    { r0 with requiresAction := true, clientSecret := p.client_secret }
  else r0

/-- The payment-intent PATCH handler (api/payment-intent route PATCH):
`confirm` confirms the existing intent id, `cancel` cancels it, anything
else is a 400; no branch creates an intent. -/
def paymentIntentPATCH (env : ProviderEnv) (id action : Option String) :
    ApiResp × Option PaymentIntentResponse × List ProviderCall :=
  match id with
  | none =>
      ({ status := 400, success := false, error := some "PaymentIntent ID is required" }, none, [])
  | some pid =>
      if action == some "confirm" then
        match env.confirmPaymentIntent pid with
        | .error msg =>
            ({ status := 500, success := false, error := some msg }, none,
             [ProviderCall.confirmPaymentIntent pid])
        | .ok p =>
            ({ status := 200, success := true, error := none }, some (mkPIPatchResponse p),
             [ProviderCall.confirmPaymentIntent pid])
      else if action == some "cancel" then
        match env.cancelPaymentIntent pid with
        | .error msg =>
            ({ status := 500, success := false, error := some msg }, none,
             [ProviderCall.cancelPaymentIntent pid])
        | .ok p =>
            ({ status := 200, success := true, error := none }, some (mkPIPatchResponse p),
             [ProviderCall.cancelPaymentIntent pid])
      else
        ({ status := 400, success := false,
           error := some "Invalid action. Use \"confirm\" or \"cancel\"" }, none, [])

/-- The operations that write the payment-methods store, at the granularity
the invariant claims quantify over: `attach` is the store effect of the
payment-methods POST once the provider attach has returned (`pm` is the
provider response, the ids are the request fields), `setDef` is the store
effect of the PATCH `set_default` action, `whSave` is a webhook upsert
(always with `isDefault := false`), `del` is the store effect of the
payment-methods DELETE or of one cascade step. -/
inductive MOp where
  | attach (pm : PMDetails) (reqPmId cid : String) (isDef : Bool)
  | setDef (pmId cid : String)
  | whSave (pm : PMDetails) (cid : String)
  | del (pmId : String)
deriving DecidableEq

/-- Apply one mirror operation to the payment-methods store, via exactly
the store calls the corresponding handler makes. -/
def applyMOp (year : Int) (op : MOp) (l : List SavedPaymentMethod) : List SavedPaymentMethod :=
  match op with
  | .attach pm reqPmId cid isDef =>
      let l1 := PaymentMethodDataStore.save (attachRecord pm cid isDef year) l
      if isDef then PaymentMethodDataStore.setAsDefault reqPmId cid l1 else l1
  | .setDef pmId cid => PaymentMethodDataStore.setAsDefault pmId cid l
  | .whSave pm cid =>
      PaymentMethodDataStore.save (savedFromRetrieved pm cid year) l
  | .del pmId => (PaymentMethodDataStore.delete pmId l).2

/-- Apply a sequence of mirror operations in order. -/
def applyMOps (year : Int) (ops : List MOp) (l : List SavedPaymentMethod) :
    List SavedPaymentMethod :=
  ops.foldl (fun acc op => applyMOp year op acc) l

/-- The default-instrument invariant: for every customer id, at most one
record of the store is flagged as default. -/
def atMostOneDefaultPer (l : List SavedPaymentMethod) : Prop :=
  ∀ c : String, (l.countP (fun pm => pm.customerId == c && pm.isDefault)) ≤ 1

/-- An operation is matched when a set-default (standalone or inside an
attach) can only target a record stored under the same customer id it
clears: the provider attach response carries the requested id, and the
stored record a `set_default` will flag (the first one with the target id)
belongs to the customer named in the request. -/
def mopMatched (op : MOp) (l : List SavedPaymentMethod) : Bool :=
  match op with
  | .attach pm reqPmId _ _ => pm.id == reqPmId
  | .setDef pmId cid =>
      match l.find? (fun pm => pm.id == pmId) with
      | some pm => pm.customerId == cid
      | none => true
  | .whSave _ _ => true
  | .del _ => true

/-- Every operation of the sequence is matched in the state it is applied
to. -/
inductive SeqMatched (year : Int) : List MOp → List SavedPaymentMethod → Prop where
  | nil : ∀ l, SeqMatched year [] l
  | cons : ∀ op ops l, mopMatched op l = true →
      SeqMatched year ops (applyMOp year op l) → SeqMatched year (op :: ops) l

section StoreLemmas

variable {α : Type} (key : α → String)

theorem upsertBy_idem (x : α) (l : List α) :
    upsertBy key x (upsertBy key x l) = upsertBy key x l := by
  induction l with
  | nil => simp [upsertBy]
  | cons y rest ih =>
      by_cases h : key y == key x
      · simp [upsertBy, h]
      · simp only [upsertBy, h, Bool.false_eq_true, if_false, ih]

theorem countP_upsertBy_le (p : α → Bool) (x : α) (hx : p x = false) (l : List α) :
    (upsertBy key x l).countP p ≤ l.countP p := by
  induction l with
  | nil => simp [upsertBy, List.countP_cons, hx]
  | cons y rest ih =>
      by_cases h : key y == key x
      · have e1 : upsertBy key x (y :: rest) = x :: rest := by
          simp [upsertBy, h]
        rw [e1, List.countP_cons, List.countP_cons, hx]
        have h0 : (if (false : Bool) = true then 1 else 0) = 0 := rfl
        rw [h0]
        exact Nat.add_le_add_left (Nat.zero_le _) _
      · have e1 : upsertBy key x (y :: rest) = y :: upsertBy key x rest := by
          simp [upsertBy, h]
        rw [e1, List.countP_cons, List.countP_cons]
        exact Nat.add_le_add_right ih _

theorem upsertBy_map_key (x : α) (l : List α) :
    (upsertBy key x l).map key = if key x ∈ l.map key then l.map key else l.map key ++ [key x] := by
  induction l with
  | nil => simp [upsertBy]
  | cons y rest ih =>
      by_cases h : key y == key x
      · have h' : key y = key x := by simpa using h
        simp [upsertBy, h, h']
      · have h' : ¬ key x = key y := by
          intro e; exact absurd (by simp [e]) h
        simp only [upsertBy, h, Bool.false_eq_true, if_false, List.map_cons, ih]
        by_cases hmem : key x ∈ rest.map key
        · simp [hmem, h']
        · simp [hmem, h', List.mem_cons]

theorem upsertBy_nodup (x : α) (l : List α) (h : (l.map key).Nodup) :
    ((upsertBy key x l).map key).Nodup := by
  rw [upsertBy_map_key]
  by_cases hmem : key x ∈ l.map key
  · simpa [hmem] using h
  · simp only [hmem, if_false]
    rw [List.nodup_append]
    refine ⟨h, List.nodup_singleton _, ?_⟩
    intro a ha hb
    rw [List.mem_singleton] at hb
    subst hb
    exact hmem ha

theorem upsertBy_length_of_mem (x : α) (l : List α) (h : key x ∈ l.map key) :
    (upsertBy key x l).length = l.length := by
  have := congrArg List.length (upsertBy_map_key key x l)
  simpa [h] using this

theorem removeBy_snd (i : String) (l : List α) :
    (removeBy key i l).2 = l.filter (fun y => !(key y == i)) := by
  simp only [removeBy]
  by_cases h : (l.filter (fun y => !(key y == i))).length < l.length
  · rw [if_pos h]
  · rw [if_neg h]
    have hle := l.length_filter_le (fun y => !(key y == i))
    have heq : (l.filter (fun y => !(key y == i))).length = l.length := by omega
    exact (List.filter_eq_self.mpr (List.filter_length_eq_length.mp heq)).symm

theorem removeBy_fst_iff (i : String) (l : List α) :
    (removeBy key i l).1 = true ↔ ∃ y ∈ l, key y = i := by
  simp only [removeBy]
  by_cases h : (l.filter (fun y => !(key y == i))).length < l.length
  · rw [if_pos h]
    constructor
    · intro _
      rcases List.length_filter_lt_length_iff_exists.mp h with ⟨y, hy, hp⟩
      exact ⟨y, hy, by simpa using hp⟩
    · intro _
      rfl
  · rw [if_neg h]
    constructor
    · intro hfalse
      exact (Bool.false_ne_true hfalse).elim
    · rintro ⟨y, hy, hk⟩
      exact absurd (List.length_filter_lt_length_iff_exists.mpr ⟨y, hy, by simp [hk]⟩) h

theorem mem_removeBy_snd (i : String) (l : List α) (y : α) :
    y ∈ (removeBy key i l).2 → key y ≠ i := by
  rw [removeBy_snd]
  intro hy
  have := List.of_mem_filter hy
  simpa using this

end StoreLemmas

namespace PaymentMethodDataStore

theorem clearCust_id (cid : String) (pm : SavedPaymentMethod) :
    (clearCust cid pm).id = pm.id := by
  unfold clearCust; split <;> rfl

theorem clearCust_customerId (cid : String) (pm : SavedPaymentMethod) :
    (clearCust cid pm).customerId = pm.customerId := by
  unfold clearCust; split <;> rfl

theorem countP_clear_self (cid : String) (l : List SavedPaymentMethod) :
    (l.map (clearCust cid)).countP (fun pm => pm.customerId == cid && pm.isDefault) = 0 := by
  induction l with
  | nil => rfl
  | cons pm rest ih =>
      rw [List.map_cons, List.countP_cons, ih]
      by_cases h : pm.customerId == cid
      · simp [clearCust, h]
      · simp [clearCust, h]

theorem countP_clear_other (c cid : String) (hc : c ≠ cid) (l : List SavedPaymentMethod) :
    (l.map (clearCust cid)).countP (fun pm => pm.customerId == c && pm.isDefault)
      = l.countP (fun pm => pm.customerId == c && pm.isDefault) := by
  induction l with
  | nil => rfl
  | cons pm rest ih =>
      rw [List.map_cons, List.countP_cons, List.countP_cons, ih]
      by_cases h : pm.customerId == cid
      · have hpc : pm.customerId = cid := by simpa using h
        have : (pm.customerId == c) = false := by
          simp [hpc]
          exact fun e => hc e.symm
        simp [clearCust, h, this]
      · simp [clearCust, h]

theorem countP_setFirstById_le (p : SavedPaymentMethod → Bool) (pmId : String)
    (l : List SavedPaymentMethod) :
    (setFirstById pmId l).countP p ≤ l.countP p + 1 := by
  induction l with
  | nil => simp [setFirstById]
  | cons pm rest ih =>
      by_cases h : pm.id == pmId
      · rw [setFirstById, if_pos h, List.countP_cons, List.countP_cons]
        have : (if p { pm with isDefault := true } = true then 1 else 0) ≤ 1 := by
          split <;> omega
        omega
      · rw [setFirstById, if_neg (by simpa using h), List.countP_cons, List.countP_cons]
        omega

theorem countP_setFirstById_eq (c pmId : String) (l : List SavedPaymentMethod)
    (h : ∀ pm, l.find? (fun x => x.id == pmId) = some pm → (pm.customerId == c) = false) :
    (setFirstById pmId l).countP (fun pm => pm.customerId == c && pm.isDefault)
      = l.countP (fun pm => pm.customerId == c && pm.isDefault) := by
  induction l with
  | nil => rfl
  | cons pm rest ih =>
      by_cases hh : pm.id == pmId
      · have hfind : (pm :: rest).find? (fun x => x.id == pmId) = some pm :=
          List.find?_cons_of_pos _ hh
        have hc := h pm hfind
        rw [setFirstById, if_pos hh, List.countP_cons, List.countP_cons]
        simp [hc]
      · have hfind : (pm :: rest).find? (fun x => x.id == pmId)
            = rest.find? (fun x => x.id == pmId) :=
          List.find?_cons_of_neg _ (by simpa using hh)
        rw [setFirstById, if_neg (by simpa using hh), List.countP_cons, List.countP_cons,
          ih (fun q hq => h q (hfind ▸ hq))]

theorem find?_map_clearCust (cid pmId : String) (l : List SavedPaymentMethod) :
    (l.map (clearCust cid)).find? (fun x => x.id == pmId)
      = (l.find? (fun x => x.id == pmId)).map (clearCust cid) := by
  induction l with
  | nil => rfl
  | cons pm rest ih =>
      by_cases h : pm.id == pmId
      · have h' : ((clearCust cid pm).id == pmId) = true := by
          rw [clearCust_id]; exact h
        rw [List.map_cons,
          @List.find?_cons_of_pos _ (fun x => x.id == pmId) (clearCust cid pm) _ h',
          @List.find?_cons_of_pos _ (fun x => x.id == pmId) pm _ h]
        rfl
      · have h' : ¬ ((clearCust cid pm).id == pmId) = true := by
          rw [clearCust_id]; simpa using h
        rw [List.map_cons,
          @List.find?_cons_of_neg _ (fun x => x.id == pmId) (clearCust cid pm) _ h',
          @List.find?_cons_of_neg _ (fun x => x.id == pmId) pm _ (by simpa using h), ih]

theorem find?_upsertBy_self (x : SavedPaymentMethod) (l : List SavedPaymentMethod) :
    (upsertBy (fun y => y.id) x l).find? (fun y => y.id == x.id) = some x := by
  induction l with
  | nil => simp [upsertBy, List.find?]
  | cons y rest ih =>
      by_cases h : y.id == x.id
      · rw [upsertBy]
        simp only [h, if_true]
        exact List.find?_cons_of_pos _ (by simp)
      · rw [upsertBy]
        simp only [h, Bool.false_eq_true, if_false]
        rw [List.find?_cons_of_neg _ (by simpa using h), ih]

theorem countP_setAsDefault_self (pmId cid : String) (l : List SavedPaymentMethod) :
    (setAsDefault pmId cid l).countP (fun pm => pm.customerId == cid && pm.isDefault) ≤ 1 := by
  unfold setAsDefault
  have h1 := countP_setFirstById_le (fun pm => pm.customerId == cid && pm.isDefault) pmId
    (l.map (clearCust cid))
  rw [countP_clear_self] at h1
  omega

theorem countP_setAsDefault_other (c pmId cid : String) (hc : c ≠ cid)
    (l : List SavedPaymentMethod)
    (hm : ∀ pm, l.find? (fun x => x.id == pmId) = some pm → pm.customerId = cid) :
    (setAsDefault pmId cid l).countP (fun pm => pm.customerId == c && pm.isDefault)
      = l.countP (fun pm => pm.customerId == c && pm.isDefault) := by
  unfold setAsDefault
  rw [countP_setFirstById_eq, countP_clear_other c cid hc]
  intro pm hpm
  rw [find?_map_clearCust] at hpm
  match hfind : l.find? (fun x => x.id == pmId) with
  | none => rw [hfind] at hpm; exact absurd hpm (by simp)
  | some q =>
      rw [hfind] at hpm
      have hq : pm = clearCust cid q := by simpa using hpm.symm
      have : pm.customerId = cid := by
        rw [hq, clearCust_customerId]
        exact hm q hfind
      simp [this]
      exact fun e => hc e.symm

end PaymentMethodDataStore

theorem countP_filter_le {α : Type} (p q : α → Bool) (l : List α) :
    (l.filter q).countP p ≤ l.countP p := by
  induction l with
  | nil => simp
  | cons a rest ih =>
      by_cases h : q a
      · rw [List.filter_cons_of_pos h, List.countP_cons, List.countP_cons]
        omega
      · rw [List.filter_cons_of_neg h, List.countP_cons]
        omega

theorem applyMOp_preserves (year : Int) (op : MOp) (l : List SavedPaymentMethod)
    (hinv : atMostOneDefaultPer l) (hm : mopMatched op l = true) :
    atMostOneDefaultPer (applyMOp year op l) := by
  cases op with
  | whSave pm cid =>
      intro c
      have hx : ((savedFromRetrieved pm cid year).customerId == c
          && (savedFromRetrieved pm cid year).isDefault) = false := by
        simp [savedFromRetrieved]
      exact le_trans (countP_upsertBy_le (fun x => x.id)
        (fun q => q.customerId == c && q.isDefault) (savedFromRetrieved pm cid year) hx l)
        (hinv c)
  | del pmId =>
      intro c
      show ((PaymentMethodDataStore.delete pmId l).2.countP _) ≤ 1
      rw [PaymentMethodDataStore.delete, removeBy_snd]
      exact le_trans (countP_filter_le _ _ l) (hinv c)
  | setDef pmId cid =>
      have hm' : ∀ pm, l.find? (fun x => x.id == pmId) = some pm → pm.customerId = cid := by
        intro pm hpm
        simp only [mopMatched] at hm
        rw [hpm] at hm
        simpa using hm
      intro c
      by_cases hc : c = cid
      · subst hc
        exact PaymentMethodDataStore.countP_setAsDefault_self pmId c l
      · show ((PaymentMethodDataStore.setAsDefault pmId cid l).countP _) ≤ 1
        rw [PaymentMethodDataStore.countP_setAsDefault_other c pmId cid hc l hm']
        exact hinv c
  | attach pm reqPmId cid isDef =>
      have hid : pm.id = reqPmId := by simpa [mopMatched] using hm
      subst hid
      cases isDef with
      | false =>
          intro c
          have hx : ((attachRecord pm cid false year).customerId == c
              && (attachRecord pm cid false year).isDefault) = false := by
            simp [attachRecord, savedFromRetrieved]
          show ((applyMOp year (.attach pm pm.id cid false) l).countP _) ≤ 1
          simp only [applyMOp, Bool.false_eq_true, if_false]
          exact le_trans (countP_upsertBy_le (fun x => x.id)
            (fun q => q.customerId == c && q.isDefault) (attachRecord pm cid false year) hx l)
            (hinv c)
      | true =>
          set r : SavedPaymentMethod := attachRecord pm cid true year with hr
          have happly : applyMOp year (.attach pm pm.id cid true) l
              = PaymentMethodDataStore.setAsDefault pm.id cid
                  (PaymentMethodDataStore.save r l) := rfl
          intro c
          rw [happly]
          by_cases hc : c = cid
          · subst hc
            exact PaymentMethodDataStore.countP_setAsDefault_self pm.id c _
          · have hfind : (PaymentMethodDataStore.save r l).find? (fun x => x.id == pm.id)
                = some r := by
              have h0 := PaymentMethodDataStore.find?_upsertBy_self r l
              have hrid : r.id = pm.id := rfl
              rw [hrid] at h0
              exact h0
            have hm' : ∀ q, (PaymentMethodDataStore.save r l).find? (fun x => x.id == pm.id)
                = some q → q.customerId = cid := by
              intro q hq
              rw [hfind] at hq
              have : q = r := (Option.some.inj hq).symm
              rw [this]
              rfl
            rw [PaymentMethodDataStore.countP_setAsDefault_other c pm.id cid hc _ hm']
            have hx : (r.customerId == c && r.isDefault) = false := by
              have h1 : r.customerId = cid := rfl
              rw [h1]
              have h2 : (cid == c) = false := by
                simp only [beq_eq_false_iff_ne]
                exact fun e => hc e.symm
              simp [h2]
            exact le_trans (countP_upsertBy_le (fun x => x.id)
              (fun q => q.customerId == c && q.isDefault) r hx l) (hinv c)

theorem applyMOps_preserves (year : Int) (ops : List MOp) (l : List SavedPaymentMethod)
    (hinv : atMostOneDefaultPer l) (hs : SeqMatched year ops l) :
    atMostOneDefaultPer (applyMOps year ops l) := by
  induction hs with
  | nil _ => exact hinv
  | cons op ops l hop _ ih =>
      exact ih (applyMOp_preserves year op l hinv hop)

theorem foldlDelete_eq_filter (L s : List SavedPaymentMethod) :
    L.foldl (fun acc pm => (PaymentMethodDataStore.delete pm.id acc).2) s
      = s.filter (fun x => L.all (fun pm => !(x.id == pm.id))) := by
  induction L generalizing s with
  | nil => simp
  | cons pm L ih =>
      rw [List.foldl_cons, ih, PaymentMethodDataStore.delete, removeBy_snd,
        List.filter_filter]
      exact List.filter_congr (fun a _ => by
        rw [List.all_cons, Bool.and_comm])

theorem handleCustomerDeleted_pms (c : RetrievedCustomer) (s : Stores) :
    (handleCustomerDeleted c s).pms
      = s.pms.filter (fun x =>
          (PaymentMethodDataStore.getByCustomerId c.id s.pms).all
            (fun pm => !(x.id == pm.id))) := by
  unfold handleCustomerDeleted
  exact foldlDelete_eq_filter _ _

theorem handleCustomerDeleted_customers (c : RetrievedCustomer) (s : Stores) :
    (handleCustomerDeleted c s).customers = s.customers.filter (fun x => !(x.id == c.id)) := by
  unfold handleCustomerDeleted
  exact removeBy_snd _ _ _

theorem mem_handleCustomerDeleted_pms (c : RetrievedCustomer) (s : Stores)
    (x : SavedPaymentMethod) (hx : x ∈ (handleCustomerDeleted c s).pms) :
    (x.customerId == c.id) = false := by
  rw [handleCustomerDeleted_pms] at hx
  have hmem := List.mem_of_mem_filter hx
  have hall := List.of_mem_filter hx
  by_cases h : (x.customerId == c.id) = true
  · exfalso
    have hxL : x ∈ PaymentMethodDataStore.getByCustomerId c.id s.pms := by
      unfold PaymentMethodDataStore.getByCustomerId
      exact List.mem_filter.mpr ⟨hmem, h⟩
    have := (List.all_eq_true.mp hall) x hxL
    simp at this
  · simpa using h

theorem handleCustomerDeleted_idem (c : RetrievedCustomer) (s : Stores) :
    handleCustomerDeleted c (handleCustomerDeleted c s) = handleCustomerDeleted c s := by
  have hpmsmem := mem_handleCustomerDeleted_pms c s
  have hempty : PaymentMethodDataStore.getByCustomerId c.id (handleCustomerDeleted c s).pms
      = [] := by
    unfold PaymentMethodDataStore.getByCustomerId
    rw [List.filter_eq_nil_iff]
    intro x hx
    simp [hpmsmem x hx]
  have hcust : (CustomerDataStore.delete c.id (handleCustomerDeleted c s).customers).2
      = (handleCustomerDeleted c s).customers := by
    rw [CustomerDataStore.delete, removeBy_snd, handleCustomerDeleted_customers,
      List.filter_filter]
    exact List.filter_congr (fun a _ => by rw [Bool.and_self])
  show ({ customers := _, pms := _ } : Stores) = handleCustomerDeleted c s
  rw [hempty, hcust]
  rfl

/-- A concrete provider environment for witnesses and counterexamples: every
oracle fails, which the handlers treat as a throwing SDK call. -/
def testEnv : ProviderEnv where
  retrieveCustomer := fun _ => .error "unreachable"
  createCustomer := fun _ _ => .error "unreachable"
  deleteCustomer := fun _ => .error "unreachable"
  updateCustomerDefaultPM := fun _ _ => .error "unreachable"
  retrievePaymentMethod := fun _ => .error "unreachable"
  attachPaymentMethod := fun _ _ => .error "unreachable"
  detachPaymentMethod := fun _ => .error "unreachable"
  createPaymentIntent := fun _ => .error "unreachable"
  confirmPaymentIntent := fun _ => .error "unreachable"
  cancelPaymentIntent := fun _ => .error "unreachable"
  currentYear := 2024

/-- C2 (amended): applying the same webhook event twice in immediate
succession leaves exactly the mirror content of applying it once — every
handler is an id-keyed idempotent upsert or an idempotent delete cascade.
(The handler performs no event-id deduplication, so reapplying a
previously seen event id after intervening mirror mutations is not a
no-op; see the counterexample.) -/
theorem c2_webhook_reapply_idempotent (env : ProviderEnv) (e : WebhookEvent) (s : Stores) :
    applyEvent env e (applyEvent env e s) = applyEvent env e s := by
  match e with
  | ⟨eid, data⟩ =>
      cases data with
      | setupIntentSucceeded si =>
          show handleSetupIntentSucceeded env si (handleSetupIntentSucceeded env si s)
            = handleSetupIntentSucceeded env si s
          cases hcond : (truthyStr si.payment_method && truthyStr si.customer) with
          | false => simp [handleSetupIntentSucceeded, hcond]
          | true =>
              cases hr : env.retrievePaymentMethod (si.payment_method.getD "") with
              | error msg => simp [handleSetupIntentSucceeded, hcond, hr]
              | ok pm =>
                  simp [handleSetupIntentSucceeded, hcond, hr,
                    PaymentMethodDataStore.save, upsertBy_idem]
      | paymentIntentSucceeded p =>
          show handlePaymentIntentSucceeded env p (handlePaymentIntentSucceeded env p s)
            = handlePaymentIntentSucceeded env p s
          cases hcond : (truthyStr p.setup_future_usage && truthyStr p.payment_method
              && truthyStr p.customer) with
          | false => simp [handlePaymentIntentSucceeded, hcond]
          | true =>
              cases hr : env.retrievePaymentMethod (p.payment_method.getD "") with
              | error msg => simp [handlePaymentIntentSucceeded, hcond, hr]
              | ok pm =>
                  simp [handlePaymentIntentSucceeded, hcond, hr,
                    PaymentMethodDataStore.save, upsertBy_idem]
      | paymentIntentFailed p => rfl
      | paymentMethodAttached pm =>
          show handlePaymentMethodAttached env pm (handlePaymentMethodAttached env pm s)
            = handlePaymentMethodAttached env pm s
          cases hcond : truthyStr pm.customer with
          | false => simp [handlePaymentMethodAttached, hcond]
          | true =>
              simp [handlePaymentMethodAttached, hcond,
                PaymentMethodDataStore.save, upsertBy_idem]
      | customerCreated c =>
          show handleCustomerCreated c (handleCustomerCreated c s) = handleCustomerCreated c s
          simp [handleCustomerCreated, CustomerDataStore.save, upsertBy_idem]
      | customerDeleted c =>
          exact handleCustomerDeleted_idem c s
      | other t => rfl

/-- C2 counterexample: the handler keeps no record of processed event ids,
so redelivering a previously seen `payment_method.attached` event after a
set-default has run overwrites the default flag — reapplication of a seen
event id is not a no-op on the mirror. -/
theorem c2_webhook_replay_counterexample :
    (let e : WebhookEvent :=
      ⟨"evt_1", .paymentMethodAttached ⟨"pm_1", some "cus_1", none, 100⟩⟩
     let s1 := applyEvent testEnv e ⟨[], []⟩
     let s2 := { s1 with pms := PaymentMethodDataStore.setAsDefault "pm_1" "cus_1" s1.pms }
     applyEvent testEnv e s2 ≠ s2) := by
  decide

/-- C3: applying a `customer.deleted` webhook event removes, in one logical
operation, the customer record and exactly the instrument records whose
`customerId` references the deleted customer; nothing else changes, so no
partial cascade is ever the result of the operation. -/
theorem c3_customer_deleted_cascade (env : ProviderEnv) (eid : String)
    (c : RetrievedCustomer) (s : Stores)
    (h : (s.pms.map (fun pm => pm.id)).Nodup) :
    (applyEvent env ⟨eid, .customerDeleted c⟩ s).customers
        = s.customers.filter (fun x => !(x.id == c.id))
      ∧ (applyEvent env ⟨eid, .customerDeleted c⟩ s).pms
        = s.pms.filter (fun pm => !(pm.customerId == c.id)) := by
  constructor
  · exact handleCustomerDeleted_customers c s
  · show (handleCustomerDeleted c s).pms = _
    rw [handleCustomerDeleted_pms]
    refine List.filter_congr (fun x hx => ?_)
    by_cases hcx : (x.customerId == c.id) = true
    · rw [hcx]
      have hmemL : x ∈ PaymentMethodDataStore.getByCustomerId c.id s.pms := by
        unfold PaymentMethodDataStore.getByCustomerId
        exact List.mem_filter.mpr ⟨hx, hcx⟩
      have : (PaymentMethodDataStore.getByCustomerId c.id s.pms).all
          (fun pm => !(x.id == pm.id)) = false := by
        rw [List.all_eq_false]
        exact ⟨x, hmemL, by simp⟩
      rw [this]
      rfl
    · have hcx' : (x.customerId == c.id) = false := by simpa using hcx
      rw [hcx']
      have : (PaymentMethodDataStore.getByCustomerId c.id s.pms).all
          (fun pm => !(x.id == pm.id)) = true := by
        rw [List.all_eq_true]
        intro pm hpm
        rw [PaymentMethodDataStore.getByCustomerId] at hpm
        obtain ⟨hpmmem, hpmc⟩ := List.mem_filter.mp hpm
        by_cases hxid : (x.id == pm.id) = true
        · exfalso
          have hxideq : x.id = pm.id := by simpa using hxid
          have hxpm : x = pm :=
            List.inj_on_of_nodup_map h hx hpmmem hxideq
          rw [hxpm] at hcx'
          rw [hcx'] at hpmc
          exact Bool.false_ne_true hpmc
        · simp only [Bool.not_eq_true] at hxid
          rw [hxid]
          rfl
      rw [this]
      rfl

/-- C3 witness: a concrete mirror with one customer owning one card and a
second customer owning another; deleting the first removes its customer
record and its card, and only those. -/
theorem c3_customer_deleted_cascade_witness :
    (applyEvent testEnv ⟨"evt_9", .customerDeleted ⟨"cus_1", none, none, 0, true⟩⟩
        ⟨[⟨"cus_1", "a@x.io", "A", 0, []⟩, ⟨"cus_2", "b@x.io", "B", 0, []⟩],
         [⟨"pm_1", "cus_1", "card", ⟨"visa", "4242", 1, 2030⟩, 0, true⟩,
          ⟨"pm_2", "cus_2", "card", ⟨"visa", "4000", 2, 2031⟩, 0, false⟩]⟩).customers
      = [⟨"cus_2", "b@x.io", "B", 0, []⟩]
    ∧ (applyEvent testEnv ⟨"evt_9", .customerDeleted ⟨"cus_1", none, none, 0, true⟩⟩
        ⟨[⟨"cus_1", "a@x.io", "A", 0, []⟩, ⟨"cus_2", "b@x.io", "B", 0, []⟩],
         [⟨"pm_1", "cus_1", "card", ⟨"visa", "4242", 1, 2030⟩, 0, true⟩,
          ⟨"pm_2", "cus_2", "card", ⟨"visa", "4000", 2, 2031⟩, 0, false⟩]⟩).pms
      = [⟨"pm_2", "cus_2", "card", ⟨"visa", "4000", 2, 2031⟩, 0, false⟩] := by
  have h := c3_customer_deleted_cascade testEnv "evt_9" ⟨"cus_1", none, none, 0, true⟩
    ⟨[⟨"cus_1", "a@x.io", "A", 0, []⟩, ⟨"cus_2", "b@x.io", "B", 0, []⟩],
     [⟨"pm_1", "cus_1", "card", ⟨"visa", "4242", 1, 2030⟩, 0, true⟩,
      ⟨"pm_2", "cus_2", "card", ⟨"visa", "4000", 2, 2031⟩, 0, false⟩]⟩
    (by decide)
  exact ⟨h.1.trans (by decide), h.2.trans (by decide)⟩

/-- C1 (amended): the at-most-one-default-per-customer invariant of the
payment-methods mirror is preserved by every sequence of attach,
set-default, webhook-save and delete operations in which each set-default
(standalone or inside attach-with-default) is matched: the provider attach
response carries the requested payment-method id, and the stored record a
`set_default` targets belongs to the customer named in the request.  When
the target record's stored `customerId` differs from the argument the
invariant can break (see the counterexample). -/
theorem c1_default_invariant_preserved (year : Int) (ops : List MOp)
    (l : List SavedPaymentMethod) (hinv : atMostOneDefaultPer l)
    (hs : SeqMatched year ops l) :
    atMostOneDefaultPer (applyMOps year ops l) :=
  applyMOps_preserves year ops l hinv hs

/-- C1 witness: attach a card as default, re-set it as default, then delete
it; from the empty mirror the invariant holds at the end. -/
theorem c1_default_invariant_preserved_witness :
    atMostOneDefaultPer (applyMOps 2024
      [MOp.attach ⟨"pm_1", some "cus_A", none, 100⟩ "pm_1" "cus_A" true,
       MOp.setDef "pm_1" "cus_A",
       MOp.del "pm_1"] []) :=
  c1_default_invariant_preserved 2024
    [MOp.attach ⟨"pm_1", some "cus_A", none, 100⟩ "pm_1" "cus_A" true,
     MOp.setDef "pm_1" "cus_A",
     MOp.del "pm_1"] []
    (fun _ => Nat.zero_le 1)
    (.cons _ _ _ (by decide)
      (.cons _ _ _ (by decide)
        (.cons _ _ _ (by decide)
          (.nil _))))

/-- C1 counterexample: a set-default whose `customerId` argument names a
different customer than the stored record clears the wrong customer's
defaults — after attaching two cards for customer A (the first as default)
and then running set-default for the second card with customer B as the
argument, customer A has two default instruments. -/
theorem c1_default_invariant_counterexample :
    ¬ atMostOneDefaultPer (applyMOps 2024
      [MOp.attach ⟨"pm_1", some "cus_A", none, 100⟩ "pm_1" "cus_A" true,
       MOp.attach ⟨"pm_2", some "cus_A", none, 100⟩ "pm_2" "cus_A" false,
       MOp.setDef "pm_2" "cus_B"] []) := by
  intro h
  exact absurd (h "cus_A") (by decide)

/-- C4: a retry carrying a prior intent id goes through the payment-intent
PATCH `confirm` action, which issues exactly one provider call — confirming
the existing intent id — and never creates a new charge intent, so the same
logical charge attempt cannot mint a second charge. -/
theorem c4_retry_confirms_existing_intent (env : ProviderEnv) (pid : String) :
    (paymentIntentPATCH env (some pid) (some "confirm")).2.2
        = [ProviderCall.confirmPaymentIntent pid]
      ∧ ∀ p : PICreateParams,
        ProviderCall.createPaymentIntent p
          ∉ (paymentIntentPATCH env (some pid) (some "confirm")).2.2 := by
  cases hr : env.confirmPaymentIntent pid with
  | error msg => constructor <;> simp [paymentIntentPATCH, hr]
  | ok p => constructor <;> simp [paymentIntentPATCH, hr]

/-- C5: a webhook delivery with a missing signature header, or one whose
signature fails verification, is rejected with status 400 and the Local
State Mirror is returned unchanged — no event dispatch happens on the
rejection path. -/
theorem c5_invalid_signature_rejected (env : ProviderEnv)
    (verify : String → String → String → Except String WebhookEvent)
    (body secret : String) (sig : Option String) (s : Stores)
    (h : sig = none ∨ ∃ sg msg, sig = some sg ∧ verify body sg secret = .error msg) :
    (webhookPOST env verify body secret sig s).1.status = 400
      ∧ (webhookPOST env verify body secret sig s).1.received = false
      ∧ (webhookPOST env verify body secret sig s).1.error.isSome = true
      ∧ (webhookPOST env verify body secret sig s).2 = s := by
  rcases h with h | ⟨sg, msg, rfl, hv⟩
  · subst h
    exact ⟨rfl, rfl, rfl, rfl⟩
  · simp [webhookPOST, hv]

/-- C5 witness: a delivery with no signature header is rejected with 400 and
leaves the empty mirror untouched. -/
theorem c5_invalid_signature_rejected_witness :
    (webhookPOST testEnv (fun _ _ _ => .error "bad") "raw" "whsec" none ⟨[], []⟩).1.status = 400
      ∧ (webhookPOST testEnv (fun _ _ _ => .error "bad") "raw" "whsec" none ⟨[], []⟩).1.received
          = false
      ∧ (webhookPOST testEnv (fun _ _ _ => .error "bad") "raw" "whsec" none
          ⟨[], []⟩).1.error.isSome = true
      ∧ (webhookPOST testEnv (fun _ _ _ => .error "bad") "raw" "whsec" none ⟨[], []⟩).2
          = ⟨[], []⟩ :=
  c5_invalid_signature_rejected testEnv (fun _ _ _ => .error "bad") "raw" "whsec" none ⟨[], []⟩
    (Or.inl rfl)

/-- C7: a charge-intent creation request whose amount is absent or not
strictly positive fails with the fixed validation message in the normalized
envelope at status 400, mutating nothing and issuing no provider call; a
strictly positive amount passes this validation and the handler proceeds. -/
theorem c7_amount_validation (env : ProviderEnv) (body : PaymentIntentBody) (s : Stores) :
    (amountInvalid body = true →
      paymentIntentPOST env body s
        = ({ status := 400, success := false, error := some "Valid amount is required" },
           none, s, []))
    ∧ (∀ a : ℚ, body.amount = some a → 0 < a →
        paymentIntentPOST env body s = paymentIntentAfterValidation env body a s) := by
  constructor
  · intro h
    simp [paymentIntentPOST, h]
  · intro a ha hpos
    have hinv : amountInvalid body = false := by
      rw [amountInvalid, ha]
      exact decide_eq_false (not_le.mpr hpos)
    simp [paymentIntentPOST, hinv, ha]

/-- C7 witness: a negative amount is rejected with the validation envelope
and no provider call; amount 5 passes validation. -/
theorem c7_amount_validation_witness :
    (paymentIntentPOST testEnv ⟨none, some (-3), none, none, false, false⟩ ⟨[], []⟩
        = ({ status := 400, success := false, error := some "Valid amount is required" },
           none, ⟨[], []⟩, []))
    ∧ (paymentIntentPOST testEnv ⟨none, some 5, none, none, false, false⟩ ⟨[], []⟩
        = paymentIntentAfterValidation testEnv ⟨none, some 5, none, none, false, false⟩ 5
            ⟨[], []⟩) :=
  ⟨(c7_amount_validation testEnv ⟨none, some (-3), none, none, false, false⟩ ⟨[], []⟩).1
      (by decide),
   (c7_amount_validation testEnv ⟨none, some 5, none, none, false, false⟩ ⟨[], []⟩).2 5 rfl
      (by decide)⟩

/-- C9: a create-customer request whose email already matches a local
record returns success carrying that existing record, issues no provider
call, and leaves the local store unchanged — creation is deduplicated by
email at the public interface. -/
theorem c9_customer_dedup_by_email (env : ProviderEnv) (body : CreateCustomerBody) (s : Stores)
    (he : truthyStr body.email = true) (hn : truthyStr body.name = true)
    (existing : CustomerData)
    (hex : CustomerDataStore.getByEmail (body.email.getD "") s.customers = some existing) :
    customersPOST env body s
      = ({ status := 200, success := true, error := none }, .existingLocal existing, s, []) := by
  simp [customersPOST, he, hn, hex]

/-- C9 witness: posting an email that matches the one stored customer
returns that record with no write and no provider call. -/
theorem c9_customer_dedup_by_email_witness :
    customersPOST testEnv ⟨some "a@x.io", some "Alice"⟩
        ⟨[⟨"cus_1", "a@x.io", "A", 0, []⟩], []⟩
      = ({ status := 200, success := true, error := none },
         .existingLocal ⟨"cus_1", "a@x.io", "A", 0, []⟩,
         ⟨[⟨"cus_1", "a@x.io", "A", 0, []⟩], []⟩, []) :=
  c9_customer_dedup_by_email testEnv ⟨some "a@x.io", some "Alice"⟩
    ⟨[⟨"cus_1", "a@x.io", "A", 0, []⟩], []⟩ (by decide) (by decide)
    ⟨"cus_1", "a@x.io", "A", 0, []⟩ (by decide)

/-- C10: under the id-uniqueness invariant, save preserves uniqueness and
replaces in place (no growth when the id is already present), and delete
reports exactly whether a record with the id existed and leaves none with
that id, for both local stores. -/
theorem c10_store_id_uniqueness (lc : List CustomerData) (lp : List SavedPaymentMethod)
    (c : CustomerData) (pm : SavedPaymentMethod) (i j : String)
    (hc : (lc.map (fun x => x.id)).Nodup) (hp : (lp.map (fun x => x.id)).Nodup) :
    ((CustomerDataStore.save c lc).map (fun x => x.id)).Nodup
    ∧ (c.id ∈ lc.map (fun x => x.id) → (CustomerDataStore.save c lc).length = lc.length)
    ∧ ((CustomerDataStore.delete i lc).1 = true ↔ ∃ r ∈ lc, r.id = i)
    ∧ (∀ r ∈ (CustomerDataStore.delete i lc).2, r.id ≠ i)
    ∧ ((PaymentMethodDataStore.save pm lp).map (fun x => x.id)).Nodup
    ∧ (pm.id ∈ lp.map (fun x => x.id) → (PaymentMethodDataStore.save pm lp).length = lp.length)
    ∧ ((PaymentMethodDataStore.delete j lp).1 = true ↔ ∃ r ∈ lp, r.id = j)
    ∧ (∀ r ∈ (PaymentMethodDataStore.delete j lp).2, r.id ≠ j) := by
  refine ⟨?_, ?_, ?_, ?_, ?_, ?_, ?_, ?_⟩
  · exact upsertBy_nodup (fun x => x.id) c lc hc
  · intro hm
    rw [CustomerDataStore.save]
    exact upsertBy_length_of_mem (fun x => x.id) c lc hm
  · rw [CustomerDataStore.delete]
    exact removeBy_fst_iff (fun x => x.id) i lc
  · intro r hr
    rw [CustomerDataStore.delete] at hr
    exact mem_removeBy_snd (fun x => x.id) i lc r hr
  · exact upsertBy_nodup (fun x => x.id) pm lp hp
  · intro hm
    rw [PaymentMethodDataStore.save]
    exact upsertBy_length_of_mem (fun x => x.id) pm lp hm
  · rw [PaymentMethodDataStore.delete]
    exact removeBy_fst_iff (fun x => x.id) j lp
  · intro r hr
    rw [PaymentMethodDataStore.delete] at hr
    exact mem_removeBy_snd (fun x => x.id) j lp r hr

/-- C10 witness: concrete two-record stores with distinct ids; save of a
record with an existing id keeps the length, delete of a present id reports
true and removes it. -/
theorem c10_store_id_uniqueness_witness :
    (((CustomerDataStore.save ⟨"cus_1", "new@x.io", "N", 5, []⟩
        [⟨"cus_1", "a@x.io", "A", 0, []⟩, ⟨"cus_2", "b@x.io", "B", 0, []⟩]).map
          (fun x => x.id)).Nodup)
    ∧ (("cus_1" : String) ∈
          ([⟨"cus_1", "a@x.io", "A", 0, []⟩, ⟨"cus_2", "b@x.io", "B", 0, []⟩] :
            List CustomerData).map (fun x => x.id) →
        (CustomerDataStore.save ⟨"cus_1", "new@x.io", "N", 5, []⟩
          [⟨"cus_1", "a@x.io", "A", 0, []⟩, ⟨"cus_2", "b@x.io", "B", 0, []⟩]).length
          = ([⟨"cus_1", "a@x.io", "A", 0, []⟩, ⟨"cus_2", "b@x.io", "B", 0, []⟩] :
              List CustomerData).length)
    ∧ ((CustomerDataStore.delete "cus_1"
          [⟨"cus_1", "a@x.io", "A", 0, []⟩, ⟨"cus_2", "b@x.io", "B", 0, []⟩]).1 = true
        ↔ ∃ r ∈ ([⟨"cus_1", "a@x.io", "A", 0, []⟩, ⟨"cus_2", "b@x.io", "B", 0, []⟩] :
            List CustomerData), r.id = "cus_1")
    ∧ (∀ r ∈ (CustomerDataStore.delete "cus_1"
          [⟨"cus_1", "a@x.io", "A", 0, []⟩, ⟨"cus_2", "b@x.io", "B", 0, []⟩]).2,
        r.id ≠ "cus_1")
    ∧ (((PaymentMethodDataStore.save ⟨"pm_1", "cus_2", "card", ⟨"mc", "1111", 2, 2031⟩, 9, true⟩
          [⟨"pm_1", "cus_1", "card", ⟨"visa", "4242", 1, 2030⟩, 0, false⟩]).map
            (fun x => x.id)).Nodup)
    ∧ (("pm_1" : String) ∈
          ([⟨"pm_1", "cus_1", "card", ⟨"visa", "4242", 1, 2030⟩, 0, false⟩] :
            List SavedPaymentMethod).map (fun x => x.id) →
        (PaymentMethodDataStore.save ⟨"pm_1", "cus_2", "card", ⟨"mc", "1111", 2, 2031⟩, 9, true⟩
          [⟨"pm_1", "cus_1", "card", ⟨"visa", "4242", 1, 2030⟩, 0, false⟩]).length
          = ([⟨"pm_1", "cus_1", "card", ⟨"visa", "4242", 1, 2030⟩, 0, false⟩] :
              List SavedPaymentMethod).length)
    ∧ ((PaymentMethodDataStore.delete "pm_9"
          [⟨"pm_1", "cus_1", "card", ⟨"visa", "4242", 1, 2030⟩, 0, false⟩]).1 = true
        ↔ ∃ r ∈ ([⟨"pm_1", "cus_1", "card", ⟨"visa", "4242", 1, 2030⟩, 0, false⟩] :
            List SavedPaymentMethod), r.id = "pm_9")
    ∧ (∀ r ∈ (PaymentMethodDataStore.delete "pm_9"
          [⟨"pm_1", "cus_1", "card", ⟨"visa", "4242", 1, 2030⟩, 0, false⟩]).2,
        r.id ≠ "pm_9") :=
  c10_store_id_uniqueness
    [⟨"cus_1", "a@x.io", "A", 0, []⟩, ⟨"cus_2", "b@x.io", "B", 0, []⟩]
    [⟨"pm_1", "cus_1", "card", ⟨"visa", "4242", 1, 2030⟩, 0, false⟩]
    ⟨"cus_1", "new@x.io", "N", 5, []⟩
    ⟨"pm_1", "cus_2", "card", ⟨"mc", "1111", 2, 2031⟩, 9, true⟩
    "cus_1" "pm_9" (by decide) (by decide)

/-- C6: when a charge-intent submission reaches the provider (positive
amount, existing non-deleted customer, payment method attached to that
customer) and the provider declines with a `card_declined` message, the
handler returns the failed envelope with that message at status 402, the
mirror is untouched (the route performs no store write), and the
webhook success handler writes an instrument only for intents carrying
`setup_future_usage`. -/
theorem c6_decline_402_no_instrument (env : ProviderEnv) (body : PaymentIntentBody)
    (s : Stores) (a : ℚ) (cid pmid msg : String) (rc : RetrievedCustomer) (pmd : PMDetails)
    (ha : body.amount = some a) (hpos : 0 < a)
    (hcid : body.customerId = some cid) (hcne : cid ≠ "")
    (hrc : env.retrieveCustomer cid = .ok rc) (hdel : rc.deleted = false)
    (hpmid : body.paymentMethodId = some pmid) (hpne : pmid ≠ "")
    (hpmd : env.retrievePaymentMethod pmid = .ok pmd) (hpc : pmd.customer = some cid)
    (hcreate : ∀ params, env.createPaymentIntent params = .error msg)
    (hdecl : strContains msg "card_declined" = true) :
    (paymentIntentPOST env body s).1 = { status := 402, success := false, error := some msg }
    ∧ (paymentIntentPOST env body s).2.1 = none
    ∧ (paymentIntentPOST env body s).2.2.1 = s
    ∧ (∀ (env2 : ProviderEnv) (eid : String) (p : PIEventObj) (s2 : Stores),
        truthyStr p.setup_future_usage = false →
        applyEvent env2 ⟨eid, .paymentIntentSucceeded p⟩ s2 = s2) := by
  have hinv : amountInvalid body = false := by
    rw [amountInvalid, ha]
    exact decide_eq_false (not_le.mpr hpos)
  have htc : truthyStr body.customerId = true := by simp [hcid, truthyStr, hcne]
  have htp : truthyStr body.paymentMethodId = true := by simp [hpmid, truthyStr, hpne]
  have hmm : (pmd.customer == body.customerId) = true := by rw [hpc, hcid]; simp
  have hlast : ∀ (env2 : ProviderEnv) (eid : String) (p : PIEventObj) (s2 : Stores),
      truthyStr p.setup_future_usage = false →
      applyEvent env2 ⟨eid, .paymentIntentSucceeded p⟩ s2 = s2 := by
    intro env2 eid p s2 hsfu
    show handlePaymentIntentSucceeded env2 p s2 = s2
    simp [handlePaymentIntentSucceeded, hsfu]
  by_cases hauth : strContains msg "authentication_required" = true
  · refine ⟨?_, ?_, ?_, hlast⟩ <;>
      simp [paymentIntentPOST, hinv, ha, paymentIntentAfterValidation, htc, hcid, hrc, hdel,
        htp, hpmid, hpmd, hpc, hmm, hcreate, hauth, truthyStr, hcne, hpne]
  · have hauth' : strContains msg "authentication_required" = false := by
      simpa using hauth
    refine ⟨?_, ?_, ?_, hlast⟩ <;>
      simp [paymentIntentPOST, hinv, ha, paymentIntentAfterValidation, htc, hcid, hrc, hdel,
        htp, hpmid, hpmd, hpc, hmm, hcreate, hauth', hdecl, truthyStr, hcne, hpne]

/-- A provider environment whose charge-intent creation declines the card;
customer and payment-method lookups succeed. -/
def declineEnv : ProviderEnv :=
  { testEnv with
    retrieveCustomer := fun _ => .ok ⟨"cus_1", none, none, 0, false⟩
    retrievePaymentMethod := fun _ => .ok ⟨"pm_1", some "cus_1", none, 100⟩
    createPaymentIntent := fun _ => .error "Your card was declined. (card_declined)" }

/-- C6 witness: an off-session charge of 5 with save-for-future-use
requested, against a declining card, yields the 402 failure envelope with
the decline message, leaves the empty mirror unchanged, and a
`payment_intent.succeeded` event without `setup_future_usage` writes
nothing. -/
theorem c6_decline_402_no_instrument_witness :
    (paymentIntentPOST declineEnv ⟨some "cus_1", some 5, none, some "pm_1", true, true⟩
        ⟨[], []⟩).1
      = { status := 402, success := false, error := some "Your card was declined. (card_declined)" }
    ∧ (paymentIntentPOST declineEnv ⟨some "cus_1", some 5, none, some "pm_1", true, true⟩
        ⟨[], []⟩).2.1 = none
    ∧ (paymentIntentPOST declineEnv ⟨some "cus_1", some 5, none, some "pm_1", true, true⟩
        ⟨[], []⟩).2.2.1 = ⟨[], []⟩
    ∧ applyEvent testEnv
        ⟨"evt_5", .paymentIntentSucceeded ⟨"pi_1", some "pm_1", some "cus_1", none, 500, "usd"⟩⟩
        ⟨[], []⟩ = ⟨[], []⟩ := by
  have h := c6_decline_402_no_instrument declineEnv
    ⟨some "cus_1", some 5, none, some "pm_1", true, true⟩ ⟨[], []⟩ 5 "cus_1" "pm_1"
    "Your card was declined. (card_declined)" ⟨"cus_1", none, none, 0, false⟩
    ⟨"pm_1", some "cus_1", none, 100⟩ rfl (by decide) rfl (by decide) rfl rfl rfl
    (by decide) rfl rfl (fun _ => rfl) (by decide)
  exact ⟨h.1, h.2.1, h.2.2.1, h.2.2.2 testEnv "evt_5" ⟨"pi_1", some "pm_1", some "cus_1", none, 500, "usd"⟩ ⟨[], []⟩ (by decide)⟩

/-- A provider environment whose attach fails with a not-found message. -/
def notFoundEnv : ProviderEnv :=
  { testEnv with
    attachPaymentMethod := fun _ _ => .error "No such payment_method: pm_404" }

/-- A provider environment whose attach fails with a card-error message. -/
def cardErrorEnv : ProviderEnv :=
  { testEnv with
    attachPaymentMethod := fun _ _ => .error "Your card was declined. (card_declined)" }

/-- C8 counterexample: the attach operation surfaces a not-found-class
provider failure and a card-class provider failure through the identical
catch-all — status 500, `success := false` — with the raw provider message
as the only differing field, so the raw text is the sole error signal and
the status does not reflect the error class. -/
theorem c8_raw_text_sole_signal_counterexample :
    (paymentMethodsPOST notFoundEnv ⟨some "pm_404", some "cus_1", false⟩ ⟨[], []⟩).1
        = { status := 500, success := false, error := some "No such payment_method: pm_404" }
    ∧ (paymentMethodsPOST cardErrorEnv ⟨some "pm_404", some "cus_1", false⟩ ⟨[], []⟩).1
        = { status := 500, success := false,
            error := some "Your card was declined. (card_declined)" }
    ∧ strContains "Your card was declined. (card_declined)" "card_declined" = true
    ∧ strContains "No such payment_method: pm_404" "No such payment_method" = true := by
  refine ⟨by decide, by decide, by decide, by decide⟩

/-- C8 (amended): failures of the payment-methods attach operation are
surfaced in the normalized envelope with the catch-all status 500 and the
raw provider message as the sole error field, and the mirror is unchanged;
per-class HTTP statuses exist only on the payment-intent creation path. -/
theorem c8_error_envelope_amended (env : ProviderEnv) (body : AttachBody) (s : Stores)
    (msg : String)
    (hpm : truthyStr body.paymentMethodId = true) (hc : truthyStr body.customerId = true)
    (hfail : env.attachPaymentMethod (body.paymentMethodId.getD "") (body.customerId.getD "")
      = .error msg) :
    (paymentMethodsPOST env body s).1 = { status := 500, success := false, error := some msg }
    ∧ (paymentMethodsPOST env body s).2.1 = s := by
  constructor <;> simp [paymentMethodsPOST, hpm, hc, hfail]

/-- C8 witness: the amended statement at the not-found environment. -/
theorem c8_error_envelope_amended_witness :
    (paymentMethodsPOST notFoundEnv ⟨some "pm_404", some "cus_1", false⟩ ⟨[], []⟩).1
        = { status := 500, success := false, error := some "No such payment_method: pm_404" }
    ∧ (paymentMethodsPOST notFoundEnv ⟨some "pm_404", some "cus_1", false⟩ ⟨[], []⟩).2.1
        = ⟨[], []⟩ :=
  c8_error_envelope_amended notFoundEnv ⟨some "pm_404", some "cus_1", false⟩ ⟨[], []⟩
    "No such payment_method: pm_404" (by decide) (by decide) rfl
